import Mathlib

/-!
Verification development for the PlusLib spatial-calibration optimizer and the
accompanying volume-comparison utility.

Numbers: the C++ source computes with `double`; this development models those
values as exact rationals (`ℚ`), and Euclidean distances are represented by
their squares so that every definition stays inside `ℚ` and stays executable.
-/

namespace PlusLib

/-! ## Basic linear algebra over ℚ -/

/-- A 3D point or vector with rational coordinates. -/
structure Vec3 where
  x : ℚ
  y : ℚ
  z : ℚ
deriving DecidableEq

/-- A 4x4 homogeneous matrix with rational entries, row-major fields. -/
structure Mat4 where
  m00 : ℚ
  m01 : ℚ
  m02 : ℚ
  m03 : ℚ
  m10 : ℚ
  m11 : ℚ
  m12 : ℚ
  m13 : ℚ
  m20 : ℚ
  m21 : ℚ
  m22 : ℚ
  m23 : ℚ
  m30 : ℚ
  m31 : ℚ
  m32 : ℚ
  m33 : ℚ
deriving DecidableEq

/-- The 4x4 identity matrix. -/
def mat4Id : Mat4 :=
  ⟨1, 0, 0, 0, 0, 1, 0, 0, 0, 0, 1, 0, 0, 0, 0, 1⟩

/-- Matrix product of two 4x4 matrices. -/
def matMul (a b : Mat4) : Mat4 :=
  ⟨a.m00 * b.m00 + a.m01 * b.m10 + a.m02 * b.m20 + a.m03 * b.m30,
   a.m00 * b.m01 + a.m01 * b.m11 + a.m02 * b.m21 + a.m03 * b.m31,
   a.m00 * b.m02 + a.m01 * b.m12 + a.m02 * b.m22 + a.m03 * b.m32,
   a.m00 * b.m03 + a.m01 * b.m13 + a.m02 * b.m23 + a.m03 * b.m33,
   a.m10 * b.m00 + a.m11 * b.m10 + a.m12 * b.m20 + a.m13 * b.m30,
   a.m10 * b.m01 + a.m11 * b.m11 + a.m12 * b.m21 + a.m13 * b.m31,
   a.m10 * b.m02 + a.m11 * b.m12 + a.m12 * b.m22 + a.m13 * b.m32,
   a.m10 * b.m03 + a.m11 * b.m13 + a.m12 * b.m23 + a.m13 * b.m33,
   a.m20 * b.m00 + a.m21 * b.m10 + a.m22 * b.m20 + a.m23 * b.m30,
   a.m20 * b.m01 + a.m21 * b.m11 + a.m22 * b.m21 + a.m23 * b.m31,
   a.m20 * b.m02 + a.m21 * b.m12 + a.m22 * b.m22 + a.m23 * b.m32,
   a.m20 * b.m03 + a.m21 * b.m13 + a.m22 * b.m23 + a.m23 * b.m33,
   a.m30 * b.m00 + a.m31 * b.m10 + a.m32 * b.m20 + a.m33 * b.m30,
   a.m30 * b.m01 + a.m31 * b.m11 + a.m32 * b.m21 + a.m33 * b.m31,
   a.m30 * b.m02 + a.m31 * b.m12 + a.m32 * b.m22 + a.m33 * b.m32,
   a.m30 * b.m03 + a.m31 * b.m13 + a.m32 * b.m23 + a.m33 * b.m33⟩

/-- Determinant of the upper-left 3x3 rotation-scale block. -/
def det3 (m : Mat4) : ℚ :=
  m.m00 * (m.m11 * m.m22 - m.m12 * m.m21)
    - m.m01 * (m.m10 * m.m22 - m.m12 * m.m20)
    + m.m02 * (m.m10 * m.m21 - m.m11 * m.m20)

/-- A matrix is affine when its bottom row is `[0,0,0,1]`. -/
def isAffine (m : Mat4) : Prop :=
  m.m30 = 0 ∧ m.m31 = 0 ∧ m.m32 = 0 ∧ m.m33 = 1

instance (m : Mat4) : Decidable (isAffine m) := by
  unfold isAffine
  infer_instance

/-- Apply a homogeneous matrix to a 3D point (the point is extended with a
fourth homogeneous coordinate equal to 1; only the top three rows are read). -/
def applyAffine (m : Mat4) (p : Vec3) : Vec3 :=
  ⟨m.m00 * p.x + m.m01 * p.y + m.m02 * p.z + m.m03,
   m.m10 * p.x + m.m11 * p.y + m.m12 * p.z + m.m13,
   m.m20 * p.x + m.m21 * p.y + m.m22 * p.z + m.m23⟩

/-- Inverse of an affine 4x4 matrix, via the adjugate of the 3x3 block.
Meaningful only when `det3 m ≠ 0` (division by zero yields junk entries,
matching the precondition that such matrices are rejected upstream). -/
def affineInverse (m : Mat4) : Mat4 :=
  let d := det3 m
  let i00 := (m.m11 * m.m22 - m.m12 * m.m21) / d
  let i01 := (m.m02 * m.m21 - m.m01 * m.m22) / d
  let i02 := (m.m01 * m.m12 - m.m02 * m.m11) / d
  let i10 := (m.m12 * m.m20 - m.m10 * m.m22) / d
  let i11 := (m.m00 * m.m22 - m.m02 * m.m20) / d
  let i12 := (m.m02 * m.m10 - m.m00 * m.m12) / d
  let i20 := (m.m10 * m.m21 - m.m11 * m.m20) / d
  let i21 := (m.m01 * m.m20 - m.m00 * m.m21) / d
  let i22 := (m.m00 * m.m11 - m.m01 * m.m10) / d
  ⟨i00, i01, i02, -(i00 * m.m03 + i01 * m.m13 + i02 * m.m23),
   i10, i11, i12, -(i10 * m.m03 + i11 * m.m13 + i12 * m.m23),
   i20, i21, i22, -(i20 * m.m03 + i21 * m.m13 + i22 * m.m23),
   0, 0, 0, 1⟩

/-- Componentwise difference of two vectors. -/
def vsub (a b : Vec3) : Vec3 :=
  ⟨a.x - b.x, a.y - b.y, a.z - b.z⟩

/-- Euclidean inner product. -/
def dot (a b : Vec3) : ℚ :=
  a.x * b.x + a.y * b.y + a.z * b.z

/-- Squared Euclidean norm. -/
def normSq (a : Vec3) : ℚ :=
  dot a a

/-- Squared Euclidean distance between two points. -/
def distSq (a b : Vec3) : ℚ :=
  normSq (vsub a b)

/-- Squared perpendicular distance from point `p` to the 3D line through
`a` and `b` (the difference between the squared norm of `p - a` and the
squared norm of its projection onto the line direction). -/
def pointLineDistSq (p a b : Vec3) : ℚ :=
  let u := vsub b a
  let w := vsub p a
  normSq w - (dot w u) ^ 2 / normSq u

/-! ## Volume-comparison program (`main` of the comparison utility)

This part is embedded directly from the source: command-line parsing outcomes
are represented by the parsed values, the four volume files by their extents,
and the two local arrays `center`/`size` — which C++ leaves uninitialized —
by explicit `stack` inputs standing for whatever the stack happened to hold. -/

/-- Six-component VTK extent `(xmin, xmax, ymin, ymax, zmin, zmax)`. -/
structure Extent6 where
  e0 : ℤ
  e1 : ℤ
  e2 : ℤ
  e3 : ℤ
  e4 : ℤ
  e5 : ℤ
deriving DecidableEq

/-- Component access by loop index, as the `for (int i = 0; i < 6; i++)`
loop in the source reads `extent[i]`. -/
def extentComponent (e : Extent6) : ℕ → ℤ
  | 0 => e.e0
  | 1 => e.e1
  | 2 => e.e2
  | 3 => e.e3
  | 4 => e.e4
  | _ => e.e5

/-- Integer triple, for the `center[3]` and `size[3]` arrays. -/
structure I3 where
  x : ℤ
  y : ℤ
  z : ℤ
deriving DecidableEq

/-- The parsed command-line arguments of the comparison program. -/
structure CvArgs where
  inputGTFileName : String
  inputGTAlphaFileName : String
  inputTestingFileName : String
  inputSliceAlphaFileName : String
  outputStatsFileName : String
  centerV : List ℤ
  sizeV : List ℤ
deriving DecidableEq

/-- The indeterminate initial contents of the uninitialized local arrays
`center[3]` and `size[3]` in `main`. -/
structure CvStack where
  center : I3
  size : I3
deriving DecidableEq

/-- The extents of the four input volumes read by the program. -/
structure CvVolumes where
  extentGT : Extent6
  extentGTAlpha : Extent6
  extentTest : Extent6
  extentSlicesAlpha : Extent6
deriving DecidableEq

/-- Outcome of a run of the comparison program: process exit status, and for
successful runs whether the statistics CSV was written. -/
inductive CvOutcome where
  | exitFailure
  | exitSuccess (statsWritten : Bool)
deriving DecidableEq

/-- The `--roi-center` parse-and-check block: exactly 3 values, none
negative. -/
def parseCenter (centerV : List ℤ) : Option I3 :=
  match centerV with
  | [a, b, c] => if a < 0 || b < 0 || c < 0 then none else some ⟨a, b, c⟩
  | _ => none

/-- The `--roi-size` parse-and-check block: 3 values, or 1 value replicated,
all strictly positive. -/
def parseSize (sizeV : List ℤ) : Option I3 :=
  match sizeV with
  | [a, b, c] => if a ≤ 0 || b ≤ 0 || c ≤ 0 then none else some ⟨a, b, c⟩
  | [a] => if a ≤ 0 then none else some ⟨a, a, a⟩
  | _ => none

/-- The extent-match loop of the source, verbatim in structure: for each of
the six components it compares ground truth against ground-truth-alpha and
(twice) against slices-alpha; the testing image's extent never appears. -/
def extentsMatch (v : CvVolumes) : Bool :=
  (List.range 6).all fun i =>
    extentComponent v.extentGT i == extentComponent v.extentGTAlpha i
      && extentComponent v.extentGT i == extentComponent v.extentSlicesAlpha i
      && extentComponent v.extentGT i == extentComponent v.extentSlicesAlpha i

/-- The `updatedExtent` array computed from `center` and `size`. -/
def updatedExtent (center size : I3) : Extent6 :=
  ⟨center.x - size.x, center.x + size.x,
   center.y - size.y, center.y + size.y,
   center.z - size.z, center.z + size.z⟩

/-- The region-of-interest bounds check of the source (note the mixed `<` /
`>=` comparisons, exactly as written there). -/
def roiOutOfBounds (u gt : Extent6) : Bool :=
  u.e0 < gt.e0 || u.e1 ≥ gt.e1 || u.e2 < gt.e2
    || u.e3 ≥ gt.e3 || u.e4 < gt.e4 || u.e5 ≥ gt.e5

/-- The control flow of `main` after successful argument parsing: required
file-name check, optional ROI parsing (skipped entirely in whole-extent mode,
leaving `center`/`size` with their stack contents), extent-match check,
unconditional ROI bounds check, and finally the guarded statistics dump. -/
def cvMain (args : CvArgs) (stack : CvStack) (vols : CvVolumes) : CvOutcome :=
  if args.inputGTFileName.isEmpty || args.inputGTAlphaFileName.isEmpty
      || args.inputTestingFileName.isEmpty || args.inputSliceAlphaFileName.isEmpty then
    CvOutcome.exitFailure
  else
    let roi : Option (I3 × I3) :=
      if args.centerV.length == 0 then
        some (stack.center, stack.size)
      else
        match parseCenter args.centerV, parseSize args.sizeV with
        | some c, some s => some (c, s)
        | _, _ => none
    match roi with
    | none => CvOutcome.exitFailure
    | some (center, size) =>
      if !extentsMatch vols then
        CvOutcome.exitFailure
      else if roiOutOfBounds (updatedExtent center size) vols.extentGT then
        CvOutcome.exitFailure
      else
        CvOutcome.exitSuccess (!args.outputStatsFileName.isEmpty)

/-! ## Spatial calibration optimizer

The repository provides only the class header
`vtkSpatialCalibrationOptimizer.h`; the member-function bodies live in a
`.cxx` file that is not part of the sources here. The definitions in this
section therefore carry `Modelled from the spec:` doc comments and follow the
specification's description of the missing implementation, keeping the names
and signatures of the header. -/

/-- The `OptimizationMethodType` enumeration of the header. -/
inductive OptimizationMethodType where
  | MINIMIZE_NONE
  | MINIMIZE_DISTANCE_OF_MIDDLE_WIRES_IN_3D
  | MINIMIZE_DISTANCE_OF_ALL_WIRES_IN_2D
deriving DecidableEq

/-- Modelled from the spec: a `CorrespondencePoint3D` for the middle-point
method — the same wire intersection observed in image space and in probe
space (the missing `.cxx` stores these as two parallel `vnl_vector` lists). -/
structure Obs3D where
  image : Vec3
  probe : Vec3
deriving DecidableEq

/-- Modelled from the spec: one element of a `CorrespondenceSet2D` for the
wire-distance method — a 2D image point, the known 3D phantom-frame wire line
(two endpoints), and the probe-to-phantom transform active for that
observation (flattened from the `nWires`/`probeToPhantomTransforms` inputs of
`SetOptimizerDataUsingNWires`, whose pairing code is in the missing `.cxx`). -/
structure Obs2D where
  imageX : ℚ
  imageY : ℚ
  wireA : Vec3
  wireB : Vec3
  probeToPhantom : Mat4
deriving DecidableEq

/-- The 2D image point of an observation as a 3D point in the image plane. -/
def img3 (o : Obs2D) : Vec3 :=
  ⟨o.imageX, o.imageY, 0⟩

/-- Modelled from the spec: driver state of `vtkSpatialCalibrationOptimizer`
(the header declares the fields; the data vectors received by the two input
setters of the missing `.cxx` are modelled as optional observation lists). -/
structure SpatialCalibrationOptimizer where
  IsotropicPixelSpacing : Bool
  OptimizationMethod : OptimizationMethodType
  ImageToProbeSeedTransformMatrix : Mat4
  ImageToProbeTransformMatrix : Mat4
  data3D : Option (List Obs3D)
  data2D : Option (List Obs2D)
  outliers : Finset ℕ
deriving DecidableEq

/-- Modelled from the spec: outcome of `Update()` — success, or one of the
distinct error conditions `InvalidSeed`, `MissingOrMismatchedInput`,
`NotConverged` (the missing `.cxx` reports these through `PlusStatus` plus
log messages). -/
inductive UpdateOutcome where
  | updSuccess
  | updInvalidSeed
  | updMissingOrMismatchedInput
  | updNotConverged
deriving DecidableEq

/-- Modelled from the spec: `SetInputDataForMiddlePointMethod` of the missing
`.cxx` — stores the paired image/probe intersection points, the seed matrix
and the outlier set. -/
def SetInputDataForMiddlePointMethod (st : SpatialCalibrationOptimizer)
    (pointsImage pointsProbe : List Vec3) (seed : Mat4) (outl : Finset ℕ) :
    SpatialCalibrationOptimizer :=
  { st with
    data3D := some ((pointsImage.zip pointsProbe).map fun pr => ⟨pr.1, pr.2⟩),
    ImageToProbeSeedTransformMatrix := seed,
    outliers := outl }

/-- Modelled from the spec: `SetOptimizerDataUsingNWires` of the missing
`.cxx` — stores the 2D observations (already paired with their wire lines and
probe-to-phantom transforms), the seed matrix and the outlier set. -/
def SetOptimizerDataUsingNWires (st : SpatialCalibrationOptimizer)
    (observations : List Obs2D) (seed : Mat4) (outl : Finset ℕ) :
    SpatialCalibrationOptimizer :=
  { st with
    data2D := some observations,
    ImageToProbeSeedTransformMatrix := seed,
    outliers := outl }

/-- Modelled from the spec: `Enabled()` of the missing `.cxx` — a pure query
returning whether the configured method is not `MINIMIZE_NONE`; paired with
the (unchanged) driver state to make side-effect freedom explicit. -/
def Enabled (st : SpatialCalibrationOptimizer) :
    SpatialCalibrationOptimizer × Bool :=
  (st, decide (st.OptimizationMethod ≠ OptimizationMethodType.MINIMIZE_NONE))

/-- The header's getter for the optimization result. -/
def GetOptimizedImageToProbeTransformMatrix (st : SpatialCalibrationOptimizer) :
    Mat4 :=
  st.ImageToProbeTransformMatrix

/-- Modelled from the spec: the input-compatibility precondition of
`Update()` in the missing `.cxx` — data of the kind matching the configured
method must have been supplied. -/
def inputCompatible (st : SpatialCalibrationOptimizer) : Bool :=
  match st.OptimizationMethod with
  | .MINIMIZE_NONE => true
  | .MINIMIZE_DISTANCE_OF_MIDDLE_WIRES_IN_3D => st.data3D.isSome
  | .MINIMIZE_DISTANCE_OF_ALL_WIRES_IN_2D => st.data2D.isSome

/-- Modelled from the spec: the singularity threshold on the seed's 3x3
block, an implementation constant of the missing `.cxx` ("determinant within
floating-point epsilon of zero"); the double-precision machine epsilon. -/
def detEpsilon : ℚ :=
  1 / 2 ^ 52

/-- Modelled from the spec: the seed-validity check of the missing `.cxx` —
a seed is rejected when the determinant of its rotation-scale block is within
`detEpsilon` of zero. -/
def seedSingular (m : Mat4) : Bool :=
  decide (|det3 m| ≤ detEpsilon)

/-- Outlier-aware retention: walk a correspondence list with its indices,
dropping every entry whose index is in the outlier set. -/
def retainFrom {α : Type} (outl : Finset ℕ) : ℕ → List α → List (ℕ × α)
  | _, [] => []
  | i, x :: xs =>
    if i ∈ outl then retainFrom outl (i + 1) xs
    else (i, x) :: retainFrom outl (i + 1) xs

/-- The retained (non-outlier) entries of a correspondence list. -/
def retain {α : Type} (outl : Finset ℕ) (xs : List α) : List α :=
  (retainFrom outl 0 xs).map Prod.snd

/-- Modelled from the spec: the 3D point-metric residual of the missing
`.cxx` — transform the image-frame point by the candidate matrix and take the
Euclidean distance (represented squared) to the probe-frame point. -/
def residual3Sq (m : Mat4) (o : Obs3D) : ℚ :=
  distSq (applyAffine m o.image) o.probe

/-- Modelled from the spec: the 2D wire-metric residual of the missing
`.cxx` — transform the image point by the candidate matrix into probe frame,
then by the inverse of the observation's probe-to-phantom transform into
phantom frame, then take the perpendicular distance (represented squared)
from that 3D point to the observation's 3D wire line. -/
def residual2Sq (m : Mat4) (o : Obs2D) : ℚ :=
  pointLineDistSq
    (applyAffine (affineInverse o.probeToPhantom) (applyAffine m (img3 o)))
    o.wireA o.wireB

/-- Modelled from the spec: number of transform parameters — translation (3)
and rotation (3) always, plus one scale component under the isotropic
constraint and three otherwise (the missing `.cxx` uses
`itkSimilarity3DTransform` respectively `itkScaleVersor3DTransform`). -/
def paramCount (isotropic : Bool) : ℕ :=
  if isotropic then 7 else 9

/-- The scale components a parameter vector denotes: a single repeated value
under the isotropic constraint, three independent values otherwise. -/
def scalesFor (isotropic : Bool) (p : List ℚ) : ℚ × ℚ × ℚ :=
  let s := p.getD 6 1
  if isotropic then (s, s, s) else (s, p.getD 7 1, p.getD 8 1)

/-- Rotation matrix from a 3-component Cayley–Gibbs rotation vector — an
exact rational parameterization of rotations whose upper 3x3 block is
orthonormal. -/
def gibbsRotation (a b c : ℚ) : Mat4 :=
  let s := 1 + a ^ 2 + b ^ 2 + c ^ 2
  ⟨(1 + a ^ 2 - b ^ 2 - c ^ 2) / s, 2 * (a * b - c) / s, 2 * (a * c + b) / s, 0,
   2 * (a * b + c) / s, (1 - a ^ 2 + b ^ 2 - c ^ 2) / s, 2 * (b * c - a) / s, 0,
   2 * (a * c - b) / s, 2 * (b * c + a) / s, (1 - a ^ 2 - b ^ 2 + c ^ 2) / s, 0,
   0, 0, 0, 1⟩

/-- Modelled from the spec: the parameter-to-matrix conversion of the missing
`.cxx` — rotation times diagonal scale in the 3x3 block, a translation
column, bottom row `[0,0,0,1]`; rotation is carried as a Cayley–Gibbs vector
(the spec allows any 3-component rotation encoding) so the conversion stays
inside ℚ. -/
def toMatrix (isotropic : Bool) (p : List ℚ) : Mat4 :=
  let tx := p.getD 0 0
  let ty := p.getD 1 0
  let tz := p.getD 2 0
  let r := gibbsRotation (p.getD 3 0) (p.getD 4 0) (p.getD 5 0)
  let sc := scalesFor isotropic p
  ⟨r.m00 * sc.1, r.m01 * sc.2.1, r.m02 * sc.2.2, tx,
   r.m10 * sc.1, r.m11 * sc.2.1, r.m12 * sc.2.2, ty,
   r.m20 * sc.1, r.m21 * sc.2.1, r.m22 * sc.2.2, tz,
   0, 0, 0, 1⟩

/-- Modelled from the spec: the seed-matrix-to-parameters conversion of the
missing `.cxx`. Translation is read off the fourth column; rotation is
recovered with the Cayley–Gibbs inverse formula (exact on orthonormal blocks,
a rational stand-in for the SVD-based polar extraction, which leaves ℚ);
scale components are initialised from the squared column norms since the
square roots of the true scales leave ℚ. -/
def toParams (isotropic : Bool) (m : Mat4) : List ℚ :=
  let tr := m.m00 + m.m11 + m.m22
  let a := (m.m21 - m.m12) / (1 + tr)
  let b := (m.m02 - m.m20) / (1 + tr)
  let c := (m.m10 - m.m01) / (1 + tr)
  let sx := m.m00 ^ 2 + m.m10 ^ 2 + m.m20 ^ 2
  let sy := m.m01 ^ 2 + m.m11 ^ 2 + m.m21 ^ 2
  let sz := m.m02 ^ 2 + m.m12 ^ 2 + m.m22 ^ 2
  [m.m03, m.m13, m.m23, a, b, c] ++ (if isotropic then [sx] else [sx, sy, sz])

/-- Modelled from the spec: the residual vector of the active metric for a
candidate matrix, over the outlier-filtered input set. -/
def activeResidualsSq (st : SpatialCalibrationOptimizer) (m : Mat4) : List ℚ :=
  match st.OptimizationMethod with
  | .MINIMIZE_NONE => []
  | .MINIMIZE_DISTANCE_OF_MIDDLE_WIRES_IN_3D =>
    (retain st.outliers (st.data3D.getD [])).map (residual3Sq m)
  | .MINIMIZE_DISTANCE_OF_ALL_WIRES_IN_2D =>
    (retain st.outliers (st.data2D.getD [])).map (residual2Sq m)

/-- The residual vector as a function of the parameter vector, as consumed by
the minimization routine. -/
def residualFnOf (st : SpatialCalibrationOptimizer) : List ℚ → List ℚ :=
  fun p => activeResidualsSq st (toMatrix st.IsotropicPixelSpacing p)

/-- A least-squares minimization routine: from a residual function and the
seed parameters it produces final parameters and a convergence flag. The
Levenberg–Marquardt internals of the missing `.cxx` are quantified over, so
theorems about the guard logic of `Update()` hold for every such routine. -/
def OptRoutine : Type :=
  (List ℚ → List ℚ) → List ℚ → List ℚ × Bool

/-- Modelled from the spec: `Update()` of the missing `.cxx` — a disabled
method is a no-op success returning the seed; otherwise check input
compatibility, reject a singular seed before any optimization, and else run
the minimization from the seed parameters and store the refined matrix,
reporting non-convergence as a distinct outcome. -/
def Update (opt : OptRoutine) (st : SpatialCalibrationOptimizer) :
    SpatialCalibrationOptimizer × UpdateOutcome :=
  if st.OptimizationMethod = OptimizationMethodType.MINIMIZE_NONE then
    ({ st with ImageToProbeTransformMatrix := st.ImageToProbeSeedTransformMatrix },
     UpdateOutcome.updSuccess)
  else if !inputCompatible st then
    (st, UpdateOutcome.updMissingOrMismatchedInput)
  else if seedSingular st.ImageToProbeSeedTransformMatrix then
    (st, UpdateOutcome.updInvalidSeed)
  else
    let r := opt (residualFnOf st)
      (toParams st.IsotropicPixelSpacing st.ImageToProbeSeedTransformMatrix)
    ({ st with ImageToProbeTransformMatrix := toMatrix st.IsotropicPixelSpacing r.1 },
     if r.2 then UpdateOutcome.updSuccess else UpdateOutcome.updNotConverged)

/-- Modelled from the spec: summary statistics of `ComputeError` in the
missing `.cxx` — mean, standard deviation (represented by the variance) and
RMS (represented by its square, the mean of the list, whose entries are
already squared residual magnitudes). -/
def errorStats (rs : List ℚ) : ℚ × ℚ × ℚ :=
  let n : ℚ := rs.length
  let meanSq := rs.sum / n
  let varSq := (rs.map fun r => (r - meanSq) ^ 2).sum / n
  (meanSq, varSq, meanSq)

/-- Modelled from the spec: `ComputeError` of the missing `.cxx` — recompute
the active metric's residuals for an arbitrary supplied matrix over the
current outlier-filtered input set and return their summary statistics;
paired with the (unchanged) driver state to make side-effect freedom
explicit. -/
def ComputeError (st : SpatialCalibrationOptimizer) (m : Mat4) :
    SpatialCalibrationOptimizer × (ℚ × ℚ × ℚ) :=
  (st, errorStats (activeResidualsSq st m))

/-! ## Helper lemmas -/

/-- Applying a product of matrices to a point is applying them in sequence,
provided the inner matrix is affine. -/
theorem applyAffine_matMul (a b : Mat4) (p : Vec3) (hb : isAffine b) :
    applyAffine (matMul a b) p = applyAffine a (applyAffine b p) := by
  obtain ⟨h0, h1, h2, h3⟩ := hb
  simp only [matMul, applyAffine, Vec3.mk.injEq]
  rw [h0, h1, h2, h3]
  refine ⟨by ring, by ring, by ring⟩

/-- Retention only consults outlier membership at indices at or beyond the
running counter. -/
theorem retainFrom_congr {α : Type} (S T : Finset ℕ) (xs : List α) (k : ℕ)
    (h : ∀ j, k ≤ j → (j ∈ S ↔ j ∈ T)) :
    retainFrom S k xs = retainFrom T k xs := by
  induction xs generalizing k with
  | nil => rfl
  | cons x xs ih =>
    have hrec := ih (k + 1) fun j hj => h j (by omega)
    by_cases hS : k ∈ S
    · have hT : k ∈ T := (h k le_rfl).mp hS
      simp [retainFrom, hS, hT, hrec]
    · have hT : k ∉ T := fun hT => hS ((h k le_rfl).mpr hT)
      simp [retainFrom, hS, hT, hrec]

/-- Adding an index to the outlier set filters exactly the entry carrying
that index out of the retained enumeration. -/
theorem retainFrom_insert_filter {α : Type} (S : Finset ℕ) (i : ℕ) (xs : List α)
    (k : ℕ) :
    retainFrom (insert i S) k xs =
      (retainFrom S k xs).filter fun pr => pr.1 != i := by
  induction xs generalizing k with
  | nil => rfl
  | cons x xs ih =>
    by_cases hS : k ∈ S
    · have hk : k ∈ insert i S := Finset.mem_insert_of_mem hS
      simp [retainFrom, hS, hk, ih]
    · by_cases hki : k = i
      · subst hki
        have hk : k ∈ insert k S := Finset.mem_insert_self k S
        simp [retainFrom, hS, hk, ih]
      · have hk : k ∉ insert i S := by
          simp [Finset.mem_insert, hki, hS]
        simp [retainFrom, hS, hk, ih, hki]

/-- Adding a fresh in-range index to the outlier set shrinks the retained
enumeration by exactly one entry. -/
theorem retainFrom_length_insert {α : Type} (S : Finset ℕ) (i : ℕ) (xs : List α)
    (k : ℕ) (hiS : i ∉ S) (hk : k ≤ i) (hlen : i < k + xs.length) :
    (retainFrom (insert i S) k xs).length + 1 = (retainFrom S k xs).length := by
  induction xs generalizing k with
  | nil => simp at hlen; omega
  | cons x xs ih =>
    by_cases hki : k = i
    · subst hki
      have hmem : k ∈ insert k S := Finset.mem_insert_self k S
      have hcong : retainFrom (insert k S) (k + 1) xs = retainFrom S (k + 1) xs :=
        retainFrom_congr _ _ xs (k + 1) fun j hj => by
          simp only [Finset.mem_insert]
          constructor
          · rintro (rfl | hj'); omega; exact hj'
          · intro hj'; exact Or.inr hj'
      simp [retainFrom, hmem, hiS, hcong]
    · have hk1 : k + 1 ≤ i := by omega
      have hlen1 : i < (k + 1) + xs.length := by
        simp only [List.length_cons] at hlen; omega
      by_cases hS : k ∈ S
      · have hk' : k ∈ insert i S := Finset.mem_insert_of_mem hS
        simp [retainFrom, hS, hk', ih (k + 1) hk1 hlen1]
      · have hk' : k ∉ insert i S := by
          simp [Finset.mem_insert, hki, hS]
        have hrec := ih (k + 1) hk1 hlen1
        simp only [retainFrom, if_neg hS, if_neg hk', List.length_cons]
        omega

/-! ## Theorems about the optimizer (spec-modelled) -/

/-- C1: with optimization enabled and compatible input supplied, a seed whose
3x3 rotation-scale block is singular (determinant within epsilon of zero)
makes `Update()` fail with the invalid-seed error, for every minimization
routine — so before any optimization iteration is attempted — and leaves the
driver state, including the stored result matrix, unchanged. -/
theorem Update_rejects_singular_seed (opt : OptRoutine)
    (st : SpatialCalibrationOptimizer)
    (hm : st.OptimizationMethod ≠ OptimizationMethodType.MINIMIZE_NONE)
    (hc : inputCompatible st = true)
    (hs : seedSingular st.ImageToProbeSeedTransformMatrix = true) :
    Update opt st = (st, UpdateOutcome.updInvalidSeed) := by
  simp [Update, hm, hc, hs]

/-- A minimization routine used for concrete instantiations: it accepts the
seed parameters and reports convergence. -/
def optTrivial : OptRoutine :=
  fun _ p => (p, true)

/-- The all-zero 4x4 matrix: its 3x3 block is singular. -/
def mat4Zero : Mat4 :=
  ⟨0, 0, 0, 0, 0, 0, 0, 0, 0, 0, 0, 0, 0, 0, 0, 0⟩

/-- A driver configured for the 3D method with data supplied and a singular
seed. -/
def demoSingularDriver : SpatialCalibrationOptimizer :=
  ⟨false, OptimizationMethodType.MINIMIZE_DISTANCE_OF_MIDDLE_WIRES_IN_3D,
   mat4Zero, mat4Id, some [⟨⟨0, 0, 0⟩, ⟨1, 2, 3⟩⟩], none, ∅⟩

theorem Update_rejects_singular_seed_witness :
    Update optTrivial demoSingularDriver =
      (demoSingularDriver, UpdateOutcome.updInvalidSeed) :=
  Update_rejects_singular_seed optTrivial demoSingularDriver
    (by decide) (by decide)
    (by simp [seedSingular, det3, demoSingularDriver, mat4Zero, detEpsilon])

/-- C2: the 2D wire-distance residual of an observation is the squared 3D
perpendicular point-to-line distance of the image point carried into phantom
frame: applying the candidate matrix and then the inverse probe-to-phantom
transform is applying their product, and the residual is the 3D point-to-line
distance of that phantom-frame point to the observation's wire line — not a
2D projected distance. -/
theorem residual2Sq_is_3d_point_line (m : Mat4) (o : Obs2D) (hm : isAffine m) :
    residual2Sq m o =
      pointLineDistSq
        (applyAffine (matMul (affineInverse o.probeToPhantom) m) (img3 o))
        o.wireA o.wireB := by
  unfold residual2Sq
  rw [applyAffine_matMul _ _ _ hm]

/-- A concrete 2D observation: image point `(2,3)`, wire line from the origin
along the x-axis, identity probe-to-phantom transform. -/
def demoObs2 : Obs2D :=
  ⟨2, 3, ⟨0, 0, 0⟩, ⟨1, 0, 0⟩, mat4Id⟩

theorem residual2Sq_is_3d_point_line_witness :
    residual2Sq mat4Id demoObs2 =
      pointLineDistSq
        (applyAffine (matMul (affineInverse demoObs2.probeToPhantom) mat4Id)
          (img3 demoObs2))
        demoObs2.wireA demoObs2.wireB :=
  residual2Sq_is_3d_point_line mat4Id demoObs2 (by decide)

/-- C3: adding a fresh in-range index to the outlier set removes exactly that
entry from the retained correspondence count, and the indexed residuals of
the remaining retained correspondences are exactly those whose index differs,
each with an unchanged residual value. -/
theorem outlier_exclusion (xs : List Obs3D) (S : Finset ℕ) (i : ℕ) (m : Mat4)
    (hiS : i ∉ S) (hlen : i < xs.length) :
    (retain (insert i S) xs).length + 1 = (retain S xs).length ∧
    (retainFrom (insert i S) 0 xs).map (fun pr => (pr.1, residual3Sq m pr.2)) =
      ((retainFrom S 0 xs).filter fun pr => pr.1 != i).map
        fun pr => (pr.1, residual3Sq m pr.2) := by
  constructor
  · have h := retainFrom_length_insert S i xs 0 hiS (Nat.zero_le i)
      (by simpa using hlen)
    simpa [retain] using h
  · rw [retainFrom_insert_filter]

/-- Two concrete 3D correspondences. -/
def demoObs3List : List Obs3D :=
  [⟨⟨0, 0, 0⟩, ⟨1, 2, 3⟩⟩, ⟨⟨1, 0, 0⟩, ⟨2, 2, 3⟩⟩]

theorem outlier_exclusion_witness :
    (retain (insert 0 (∅ : Finset ℕ)) demoObs3List).length + 1 =
      (retain (∅ : Finset ℕ) demoObs3List).length :=
  (outlier_exclusion demoObs3List ∅ 0 mat4Id (by decide) (by decide)).1

/-- C4: with the configured method `MINIMIZE_NONE`, `Update()` succeeds as a
no-op for every minimization routine: no optimization is performed and the
resulting image-to-probe matrix is the seed matrix unchanged. -/
theorem Update_disabled_noop (opt : OptRoutine) (st : SpatialCalibrationOptimizer)
    (hm : st.OptimizationMethod = OptimizationMethodType.MINIMIZE_NONE) :
    Update opt st =
      ({ st with ImageToProbeTransformMatrix := st.ImageToProbeSeedTransformMatrix },
       UpdateOutcome.updSuccess) ∧
    GetOptimizedImageToProbeTransformMatrix (Update opt st).1 =
      st.ImageToProbeSeedTransformMatrix := by
  refine ⟨by simp [Update, hm], ?_⟩
  simp [Update, GetOptimizedImageToProbeTransformMatrix, hm]

/-- A driver with optimization disabled. -/
def demoDisabledDriver : SpatialCalibrationOptimizer :=
  ⟨true, OptimizationMethodType.MINIMIZE_NONE, mat4Id, mat4Zero, none, none, ∅⟩

theorem Update_disabled_noop_witness :
    Update optTrivial demoDisabledDriver =
      ({ demoDisabledDriver with
          ImageToProbeTransformMatrix :=
            demoDisabledDriver.ImageToProbeSeedTransformMatrix },
       UpdateOutcome.updSuccess) ∧
    GetOptimizedImageToProbeTransformMatrix (Update optTrivial demoDisabledDriver).1 =
      demoDisabledDriver.ImageToProbeSeedTransformMatrix :=
  Update_disabled_noop optTrivial demoDisabledDriver (by decide)

/-- C5: `ComputeError` modifies no driver state, and a second call with the
same matrix on the state left by the first produces identical mean, standard
deviation and RMS outputs — residual evaluation is deterministic given
identical parameters and identical outlier set. -/
theorem ComputeError_deterministic (st : SpatialCalibrationOptimizer) (m : Mat4) :
    (ComputeError st m).1 = st ∧
    (ComputeError (ComputeError st m).1 m).2 = (ComputeError st m).2 :=
  ⟨rfl, rfl⟩

/-- C6: the length and meaning of the parameter vector are a function of the
isotropic-scaling flag alone: the seed conversion produces `paramCount`
parameters for the configured flag, neither data-setting call nor `Update()`
changes the flag, and under the isotropic constraint the three scale
components are one repeated value. -/
theorem paramCount_flag_only (st : SpatialCalibrationOptimizer) (opt : OptRoutine)
    (pointsImage pointsProbe : List Vec3) (observations : List Obs2D)
    (seed : Mat4) (outl : Finset ℕ) (p : List ℚ) :
    (toParams st.IsotropicPixelSpacing st.ImageToProbeSeedTransformMatrix).length
        = paramCount st.IsotropicPixelSpacing ∧
    (SetInputDataForMiddlePointMethod st pointsImage pointsProbe seed
        outl).IsotropicPixelSpacing = st.IsotropicPixelSpacing ∧
    (SetOptimizerDataUsingNWires st observations seed
        outl).IsotropicPixelSpacing = st.IsotropicPixelSpacing ∧
    ((Update opt st).1).IsotropicPixelSpacing = st.IsotropicPixelSpacing ∧
    scalesFor true p = (p.getD 6 1, p.getD 6 1, p.getD 6 1) := by
  refine ⟨?_, rfl, rfl, ?_, rfl⟩
  · by_cases h : st.IsotropicPixelSpacing <;> simp [toParams, paramCount, h]
  · by_cases h1 : st.OptimizationMethod = OptimizationMethodType.MINIMIZE_NONE
    · simp [Update, h1]
    · by_cases h2 : inputCompatible st
      · by_cases h3 : seedSingular st.ImageToProbeSeedTransformMatrix
        · simp [Update, h1, h2, h3]
        · simp [Update, h1, h2, h3]
      · simp [Update, h1, h2]

/-- C7: `Enabled()` returns true exactly when the configured method is not
`MINIMIZE_NONE`, and it leaves the driver state untouched. -/
theorem Enabled_pure_iff (st : SpatialCalibrationOptimizer) :
    ((Enabled st).2 = true ↔
      st.OptimizationMethod ≠ OptimizationMethodType.MINIMIZE_NONE) ∧
    (Enabled st).1 = st := by
  exact ⟨by simp [Enabled], rfl⟩

/-! ## Theorems about the volume-comparison program -/

/-- C8: in the volume-comparison program, whenever `--roi-center` is omitted
(whole-extent mode) but all four input files are supplied and their extents
pass the match check, `main` still computes the region-of-interest extents
from the never-assigned `center`/`size` arrays and evaluates the out-of-volume
bounds check on them; whenever that check fires on the stack contents the
program exits with failure even though no region of interest was requested. -/
theorem cvMain_wholeExtent_junk_roi_failure (args : CvArgs) (stack : CvStack)
    (vols : CvVolumes)
    (h1 : args.inputGTFileName.isEmpty = false)
    (h2 : args.inputGTAlphaFileName.isEmpty = false)
    (h3 : args.inputTestingFileName.isEmpty = false)
    (h4 : args.inputSliceAlphaFileName.isEmpty = false)
    (hc : args.centerV = [])
    (hm : extentsMatch vols = true)
    (hb : roiOutOfBounds (updatedExtent stack.center stack.size) vols.extentGT = true) :
    cvMain args stack vols = CvOutcome.exitFailure := by
  simp [cvMain, h1, h2, h3, h4, hc, hm, hb]

/-- Demonstration arguments: four input files supplied, no ROI requested,
no statistics file. -/
def demoArgsNoRoi : CvArgs :=
  ⟨"gt.mha", "gtAlpha.mha", "test.mha", "slices.mha", "", [], []⟩

/-- Demonstration stack contents for the uninitialized `center`/`size`. -/
def demoStackJunk : CvStack :=
  ⟨⟨-5, 0, 0⟩, ⟨1, 1, 1⟩⟩

/-- A shared extent for the demonstration volumes. -/
def demoExtent : Extent6 :=
  ⟨0, 10, 0, 10, 0, 10⟩

/-- Demonstration volumes whose four extents all agree. -/
def demoVolsMatching : CvVolumes :=
  ⟨demoExtent, demoExtent, demoExtent, demoExtent⟩

theorem cvMain_wholeExtent_junk_roi_failure_witness :
    cvMain demoArgsNoRoi demoStackJunk demoVolsMatching = CvOutcome.exitFailure :=
  cvMain_wholeExtent_junk_roi_failure demoArgsNoRoi demoStackJunk demoVolsMatching
    (by decide) (by decide) (by decide) (by decide) (by decide) (by decide) (by decide)

/-- C9: the extent-match validation never reads the testing image's extent:
whenever the ground-truth-alpha and slices-alpha extents equal the ground
truth's, the check passes for every testing-image extent, including ones that
differ from the ground truth. -/
theorem extentsMatch_ignores_testing_image (v : CvVolumes) (t : Extent6)
    (hA : v.extentGTAlpha = v.extentGT)
    (hS : v.extentSlicesAlpha = v.extentGT) :
    extentsMatch { v with extentTest := t } = true := by
  simp [extentsMatch, hA, hS]

/-- Demonstration volumes whose testing-image extent disagrees with all the
other extents. -/
def demoVolsBadTest : CvVolumes :=
  ⟨demoExtent, demoExtent, ⟨0, 99, 0, 99, 0, 99⟩, demoExtent⟩

theorem extentsMatch_ignores_testing_image_witness :
    extentsMatch { demoVolsBadTest with extentTest := ⟨0, 99, 0, 99, 0, 99⟩ } = true :=
  extentsMatch_ignores_testing_image demoVolsBadTest ⟨0, 99, 0, 99, 0, 99⟩
    (by decide) (by decide)

/-- C10: the required-argument check of the comparison program tests only the
four input file names, even though its error message also names
`--output-stats-file`: an invocation that supplies the four inputs, omits the
statistics file name, and passes the remaining checks runs to completion and
returns success without writing any statistics file. -/
theorem cvMain_missing_stats_file_succeeds (args : CvArgs) (stack : CvStack)
    (vols : CvVolumes)
    (h1 : args.inputGTFileName.isEmpty = false)
    (h2 : args.inputGTAlphaFileName.isEmpty = false)
    (h3 : args.inputTestingFileName.isEmpty = false)
    (h4 : args.inputSliceAlphaFileName.isEmpty = false)
    (hstats : args.outputStatsFileName = "")
    (hc : args.centerV = [])
    (hm : extentsMatch vols = true)
    (hb : roiOutOfBounds (updatedExtent stack.center stack.size) vols.extentGT = false) :
    cvMain args stack vols = CvOutcome.exitSuccess false := by
  simp [cvMain, h1, h2, h3, h4, hstats, hc, hm, hb]
  decide

/-- In-bounds demonstration stack contents. -/
def demoStackInBounds : CvStack :=
  ⟨⟨5, 5, 5⟩, ⟨1, 1, 1⟩⟩

theorem cvMain_missing_stats_file_succeeds_witness :
    cvMain demoArgsNoRoi demoStackInBounds demoVolsMatching = CvOutcome.exitSuccess false :=
  cvMain_missing_stats_file_succeeds demoArgsNoRoi demoStackInBounds demoVolsMatching
    (by decide) (by decide) (by decide) (by decide) (by decide) (by decide)
    (by decide) (by decide)

end PlusLib
